import Mathlib

/-!
# cgroup v1 subsystem of HotSpot (os/linux): embedding and properties

Sources embedded here:

* `src/hotspot/os/linux/cgroupUtil_linux.cpp` (`CgroupUtil::processor_count`)
* `src/hotspot/os/linux/cgroupV1Subsystem_linux.cpp` / `.hpp`
  (`CgroupV1Controller::set_subsystem_path`, the memory queries)

Conventions of the embedding

* C `int` / `jlong` values are `Int`, `julong` values are `Nat`; the cast
  `(jlong)x` of a `julong` is `toJlong`, with the wrap modulo `2 ^ 64` explicit.
* A read of a cgroup pseudo file (`cg_file_contents_ctrl`,
  `cg_file_multi_line_ctrl`) is an input of type `Option`: `none` is a non-zero
  error code, `some v` the value scanned.
* `float` is IEEE-754 binary32 with round-to-nearest, ties-to-even, as on the
  x86-64 and AArch64 ports.  Only nonnegative values occur, and they are kept as
  exact fractions `num / den`.
* C strings live in a heap of buffers; a `char*` is a buffer index and an
  offset, so that pointer comparisons (`p == _root`) keep their C meaning.
-/

namespace Cgroup

/-! ## binary32 arithmetic on nonnegative values -/

/-- Floor of the binary logarithm, by repeated halving (`fuel` bounds the depth). -/
def ilog2Aux : Nat → Nat → Nat
  | 0, _ => 0
  | fuel + 1, n => if n < 2 then 0 else ilog2Aux fuel (n / 2) + 1

/-- Floor of the binary logarithm of `n` (and `0` for `n = 0`). -/
def ilog2 (n : Nat) : Nat := ilog2Aux n n

/-- A nonnegative `float` value, kept as the exact fraction `num / den`. -/
structure Flt where
  num : Nat
  den : Nat
deriving DecidableEq, Repr

/-- Rounding of the exact nonnegative fraction `n / d` to binary32: the nearest
value with a 24-bit significand, ties going to the even significand.

The fraction is scaled by `2 ^ s` so that its integer part `Q` has at least 25
bits; `k` is the number of low bits that do not fit the significand `m`; the
discarded part is `r + R / d` in units of the last kept bit times `2 ^ (-k)`,
compared against one half (`2 ^ (k - 1)`).  The exponent range of binary32 is
not modelled: every value met here lies between `2 ^ (-31)` and `2 ^ 31`. -/
def roundBinary32 (n d : Nat) : Flt :=
  let s := 25 + ilog2 d
  let Q := n * 2 ^ s / d
  let R := n * 2 ^ s % d
  let k := ilog2 Q - 23
  let m := Q / 2 ^ k
  let r := Q % 2 ^ k
  let half := 2 ^ (k - 1)
  let up : Bool :=
    decide (half < r) || (decide (r = half) && (decide (R ≠ 0) || decide (m % 2 = 1)))
  ⟨(if up then m + 1 else m) * 2 ^ k, 2 ^ s⟩

/-- The conversion `(float)i` of a nonnegative `int`. -/
def i2f (i : Int) : Flt := roundBinary32 i.toNat 1

/-- The binary32 quotient `a / b` (correctly rounded), for `b` nonzero. -/
def fdiv32 (a b : Flt) : Flt := roundBinary32 (a.num * b.den) (a.den * b.num)

/-- The C library `ceilf` on a nonnegative value: exact, the result is an integer. -/
def ceilf (x : Flt) : Flt := ⟨(x.num + x.den - 1) / x.den, 1⟩

/-- The implicit conversion `float → int` of `quota_count = ceilf(...)`.  The
value is truncated; when the truncated value does not fit an `int` C++ leaves the
conversion undefined, and `oor` stands for the `int` the platform delivers there
(`cvttss2si` on x86-64 gives `INT_MIN`, `fcvtzs` on AArch64 gives `INT_MAX`). -/
def f2i (oor : Int) (x : Flt) : Int :=
  if x.num / x.den < 2 ^ 31 then ((x.num / x.den : Nat) : Int) else oor

/-! ## `CgroupUtil::processor_count` (cgroupUtil_linux.cpp, lines 28-49) -/

/-- The body of `CgroupUtil::processor_count`, with the `float` division it
uses as a parameter.  `quota` and `period` are what `cpu_ctrl->cpu_quota()` and
`cpu_ctrl->cpu_period()` returned. -/
def processor_count_with (fdiv : Flt → Flt → Flt) (oor : Int)
    (host_cpus quota period : Int) : Int :=
  let limit_count := host_cpus
  let quota_count : Int :=
    if quota > -1 ∧ period > 0 then
      f2i oor (ceilf (fdiv (i2f quota) (i2f period)))
    else 0
  let limit_count := if quota_count ≠ 0 then quota_count else limit_count
  min host_cpus limit_count

/-- `CgroupUtil::processor_count`: the body above with the binary32 division. -/
def processor_count (oor : Int) (host_cpus quota period : Int) : Int :=
  processor_count_with fdiv32 oor host_cpus quota period

/-- The processor count as the specification words it: the exact ceiling of
`quota / period` when `quota > -1` and `period > 0` (else `0`), the host count
when that is zero, clamped to the host count. -/
def spec_processorCount (host_cpus quota period : Int) : Int :=
  let quotaCount : Int :=
    if quota > -1 ∧ period > 0 then ⌈(quota : ℚ) / (period : ℚ)⌉ else 0
  let limit := if quotaCount ≠ 0 then quotaCount else host_cpus
  min host_cpus limit

/-! ## C strings and the heap -/

/-- A `char*`: a buffer of the heap and an offset into it. -/
structure Ptr where
  buf : Nat
  off : Nat
deriving DecidableEq, Repr

/-- The heap: buffer `i` holds the characters that precede its terminating NUL. -/
abbrev Heap := List (List Char)

/-- The C string a pointer designates: the buffer's characters from the offset on. -/
def cstr (h : Heap) (p : Ptr) : List Char := (h.getD p.buf []).drop p.off

/-- Allocation of a fresh buffer holding a copy of `s` (the effect of
`os::strdup`); the result points to its first character.  Allocation failure is
not modelled. -/
def os_strdup (h : Heap) (s : List Char) : Heap × Ptr := (h ++ [s], ⟨h.length, 0⟩)

/-- Index of the first occurrence of `needle` in `hay`, if there is one. -/
def findSub : List Char → List Char → Option Nat
  | [], needle => if needle = [] then some 0 else none
  | c :: cs, needle =>
    if needle.isPrefixOf (c :: cs) then some 0 else (findSub cs needle).map (· + 1)

/-- The C library `strstr(haystack, needle)`: a pointer into the haystack's
buffer at the first occurrence of the needle, or null. -/
def strstr (h : Heap) (haystack needle : Ptr) : Option Ptr :=
  (findSub (cstr h haystack) (cstr h needle)).map
    (fun i => ⟨haystack.buf, haystack.off + i⟩)

/-- The C library `strlen`. -/
def strlen (h : Heap) (p : Ptr) : Nat := (cstr h p).length

/-! ## `CgroupV1Controller` (cgroupV1Subsystem_linux.hpp, lines 35-64) -/

/-- The data members of `CgroupV1Controller` (`_cgroup_path` is inherited from
`CgroupController`); `none` is `nullptr`. -/
structure CgroupV1Controller where
  _root : Option Ptr
  _mount_point : Option Ptr
  _path : Option Ptr
  _cgroup_path : Option Ptr
deriving DecidableEq, Repr

/-- The constructor `CgroupV1Controller(char *root, char *mountpoint)`: both
strings are duplicated, in member order; the path starts out null. -/
def CgroupV1Controller.construct (h : Heap) (root mountpoint : Ptr) :
    Heap × CgroupV1Controller :=
  let (h1, r) := os_strdup h (cstr h root)
  let (h2, m) := os_strdup h1 (cstr h1 mountpoint)
  (h2, { _root := some r, _mount_point := some m, _path := none, _cgroup_path := none })

/-- The accessor `subsystem_path()`, read as a string. -/
def CgroupV1Controller.subsystem_path (h : Heap) (c : CgroupV1Controller) :
    Option (List Char) :=
  c._path.map (cstr h)

/-- `CgroupV1Controller::set_subsystem_path` (cgroupV1Subsystem_linux.cpp, lines
40-66).  `ss` is the local `stringStream`; `ss.print_raw(_mount_point)`
dereferences `_mount_point`, so a null mount point makes the call fail (`none`).
The result is the heap and the controller after the call. -/
def CgroupV1Controller.set_subsystem_path (h : Heap) (c : CgroupV1Controller)
    (cgroup_path : Option Ptr) : Option (Heap × CgroupV1Controller) :=
  let ss : List Char := []
  match c._root, cgroup_path with
  | some root, some cg =>
    if cstr h root = ['/'] then
      match c._mount_point with
      | none => none
      | some mp =>
        let ss := ss ++ cstr h mp
        let ss := if cstr h cg ≠ ['/'] then ss ++ cstr h cg else ss
        let (h1, p) := os_strdup h ss
        some (h1, { c with _path := some p })
    else
      if cstr h root = cstr h cg then
        match c._mount_point with
        | none => none
        | some mp =>
          let ss := ss ++ cstr h mp
          let (h1, p) := os_strdup h ss
          some (h1, { c with _path := some p })
      else
        match strstr h cg root with
        | some p =>
          if p = root then
            if strlen h cg > strlen h root then
              match c._mount_point with
              | none => none
              | some mp =>
                let ss := ss ++ cstr h mp
                let cg_path_sub : Ptr := ⟨cg.buf, cg.off + strlen h root⟩
                let ss := ss ++ cstr h cg_path_sub
                let (h1, p1) := os_strdup h ss
                some (h1, { c with _path := some p1 })
            else some (h, c)
          else some (h, c)
        | none => some (h, c)
  | _, _ => some (h, c)

/-- What the constructor leaves behind: the path is null and `_root`, when
not null, points to the first character of its buffer, as `os::strdup` returned
it. -/
def CgroupV1Controller.Fresh (c : CgroupV1Controller) : Prop :=
  c._path = none ∧ ∀ r, c._root = some r → r.off = 0

/-- A heap with four caller-owned strings, used to run the code on concrete
inputs: `/docker`, `/sys/fs/cgroup/memory`, `/docker/app` and `/`. -/
def exampleHeap : Heap :=
  ["/docker".toList, "/sys/fs/cgroup/memory".toList, "/docker/app".toList, "/".toList]

/-! ## Memory limit (cgroupV1Subsystem_linux.cpp, lines 96-127) -/

/-- Modelled from the spec: the macro `OSCONTAINER_ERROR` is defined in
`osContainer_linux.hpp`, which is not among the sources; the specification
describes it as a fixed negative error constant distinct from `-1`
("unsupported"), and HotSpot defines it as `-2`. -/
def OSCONTAINER_ERROR : Int := -2

/-- The cast `(jlong)x` of a `julong`: two's complement reading of the low 64 bits. -/
def toJlong (x : Nat) : Int :=
  if x % 2 ^ 64 < 2 ^ 63 then ((x % 2 ^ 64 : Nat) : Int)
  else ((x % 2 ^ 64 : Nat) : Int) - 2 ^ 64

/-- `CgroupV1Subsystem::read_memory_limit_in_bytes`.

* `limit_read`: the read of `memory.limit_in_bytes` (`none`: `err != 0`);
* `is_hierarchical`: `mem_controller->is_hierarchical()`;
* `stat_read`: the read of `hierarchical_memory_limit` in `memory.stat`;
* `physical_memory`: `os::Linux::physical_memory()`. -/
def read_memory_limit_in_bytes (limit_read : Option Nat) (is_hierarchical : Bool)
    (stat_read : Option Nat) (physical_memory : Nat) : Int :=
  match limit_read with
  | none => OSCONTAINER_ERROR
  | some memlimit =>
    if memlimit ≥ physical_memory then
      if is_hierarchical then
        match stat_read with
        | none => OSCONTAINER_ERROR
        | some hier_memlimit =>
          if hier_memlimit ≥ physical_memory then (-1 : Int)
          else toJlong hier_memlimit
      else (-1 : Int)
    else toJlong memlimit

/-! ## The memory controller's files and the remaining memory queries -/

/-- The outcome of every read the memory queries perform on the memory
controller, for one state of its control files.  A field is `none` when the read
helper reports an error; `stat_*` are the keys of `memory.stat`;
`is_hierarchical` is the flag `set_subsystem_path` stored from
`memory.use_hierarchy`. -/
structure MemoryReads where
  limit_in_bytes : Option Nat
  usage_in_bytes : Option Int
  max_usage_in_bytes : Option Int
  soft_limit_in_bytes : Option Nat
  memsw_limit_in_bytes : Option Nat
  memsw_usage_in_bytes : Option Nat
  swappiness : Option Nat
  stat_rss : Option Nat
  stat_cache : Option Nat
  stat_hierarchical_memory_limit : Option Nat
  stat_hierarchical_memsw_limit : Option Nat
  kmem_usage_in_bytes : Option Int
  kmem_limit_in_bytes : Option Nat
  kmem_max_usage_in_bytes : Option Int
  is_hierarchical : Bool
deriving DecidableEq, Repr

/-- `CgroupV1Subsystem::read_mem_swap` (lines 141-172).  `host_total_memsw` is
the `julong` sum `os::Linux::host_swap() + os::Linux::physical_memory()`. -/
def read_mem_swap (f : MemoryReads) (physical_memory host_swap : Nat) : Int :=
  match f.memsw_limit_in_bytes with
  | none => OSCONTAINER_ERROR
  | some memswlimit =>
    let host_total_memsw := (host_swap + physical_memory) % 2 ^ 64
    if memswlimit ≥ host_total_memsw then
      if f.is_hierarchical then
        match f.stat_hierarchical_memsw_limit with
        | none => OSCONTAINER_ERROR
        | some hier_memswlimit =>
          if hier_memswlimit ≥ host_total_memsw then (-1 : Int)
          else toJlong hier_memswlimit
      else (-1 : Int)
    else toJlong memswlimit

/-- `CgroupV1Subsystem::read_mem_swappiness` (lines 219-229). -/
def read_mem_swappiness (f : MemoryReads) : Int :=
  match f.swappiness with
  | none => OSCONTAINER_ERROR
  | some swappiness => toJlong swappiness

/-- `CgroupV1Subsystem::memory_and_swap_limit_in_bytes` (lines 174-193); the
nested `read_memory_limit_in_bytes()` reads the same files. -/
def memory_and_swap_limit_in_bytes (f : MemoryReads) (physical_memory host_swap : Nat) :
    Int :=
  let memory_swap := read_mem_swap f physical_memory host_swap
  if memory_swap = -1 then memory_swap
  else
    let swappiness := read_mem_swappiness f
    if swappiness = 0 ∨ memory_swap = OSCONTAINER_ERROR then
      let memlimit := read_memory_limit_in_bytes f.limit_in_bytes f.is_hierarchical
        f.stat_hierarchical_memory_limit physical_memory
      memlimit
    else memory_swap

/-- The static helper `memory_swap_usage_impl` (lines 195-205). -/
def memory_swap_usage_impl (f : MemoryReads) : Int :=
  match f.memsw_usage_in_bytes with
  | none => OSCONTAINER_ERROR
  | some memory_swap_usage => toJlong memory_swap_usage

/-- `CgroupV1Subsystem::memory_usage_in_bytes` (lines 257-267). -/
def memory_usage_in_bytes (f : MemoryReads) : Int :=
  match f.usage_in_bytes with
  | none => OSCONTAINER_ERROR
  | some memusage => memusage

/-- `CgroupV1Subsystem::memory_and_swap_usage_in_bytes` (lines 207-217).
`memory_limit` is the value of `CgroupSubsystem::memory_limit_in_bytes()`, a
member of the base class that is not among the sources.  The difference of two
positive `jlong` values does not wrap. -/
def memory_and_swap_usage_in_bytes (f : MemoryReads) (physical_memory host_swap : Nat)
    (memory_limit : Int) : Int :=
  let memory_sw_limit := memory_and_swap_limit_in_bytes f physical_memory host_swap
  if memory_sw_limit > 0 ∧ memory_limit > 0 then
    let delta_swap := memory_sw_limit - memory_limit
    if delta_swap > 0 then memory_swap_usage_impl f
    else memory_usage_in_bytes f
  else memory_usage_in_bytes f

/-- `CgroupV1Subsystem::memory_soft_limit_in_bytes` (lines 231-246). -/
def memory_soft_limit_in_bytes (f : MemoryReads) (physical_memory : Nat) : Int :=
  match f.soft_limit_in_bytes with
  | none => OSCONTAINER_ERROR
  | some memsoftlimit =>
    if memsoftlimit ≥ physical_memory then (-1 : Int) else toJlong memsoftlimit

/-- `CgroupV1Subsystem::memory_max_usage_in_bytes` (lines 277-287). -/
def memory_max_usage_in_bytes (f : MemoryReads) : Int :=
  match f.max_usage_in_bytes with
  | none => OSCONTAINER_ERROR
  | some memmaxusage => memmaxusage

/-- `CgroupV1Subsystem::rss_usage_in_bytes` (lines 289-297); the `julong` is
returned as `jlong`. -/
def rss_usage_in_bytes (f : MemoryReads) : Int :=
  match f.stat_rss with
  | none => OSCONTAINER_ERROR
  | some rss => toJlong rss

/-- `CgroupV1Subsystem::cache_usage_in_bytes` (lines 299-307). -/
def cache_usage_in_bytes (f : MemoryReads) : Int :=
  match f.stat_cache with
  | none => OSCONTAINER_ERROR
  | some cache => toJlong cache

/-- `CgroupV1Subsystem::kernel_memory_usage_in_bytes` (lines 309-319). -/
def kernel_memory_usage_in_bytes (f : MemoryReads) : Int :=
  match f.kmem_usage_in_bytes with
  | none => OSCONTAINER_ERROR
  | some kmem_usage => kmem_usage

/-- `CgroupV1Subsystem::kernel_memory_limit_in_bytes` (lines 321-334). -/
def kernel_memory_limit_in_bytes (f : MemoryReads) (physical_memory : Nat) : Int :=
  match f.kmem_limit_in_bytes with
  | none => OSCONTAINER_ERROR
  | some kmem_limit =>
    if kmem_limit ≥ physical_memory then (-1 : Int) else toJlong kmem_limit

/-- `CgroupV1Subsystem::kernel_memory_max_usage_in_bytes` (lines 336-346). -/
def kernel_memory_max_usage_in_bytes (f : MemoryReads) : Int :=
  match f.kmem_max_usage_in_bytes with
  | none => OSCONTAINER_ERROR
  | some kmem_max_usage => kmem_max_usage

/-! ## The cpu and pids queries (lines 388-478) -/

/-- The outcome of the reads of `cpu.cfs_quota_us`, `cpu.cfs_period_us` and
`cpu.shares` (scanned with `%d`). -/
structure CpuReads where
  cfs_quota_us : Option Int
  cfs_period_us : Option Int
  shares : Option Int
deriving DecidableEq, Repr

/-- `CgroupV1Subsystem::cpu_quota` (lines 388-397). -/
def cpu_quota (f : CpuReads) : Int :=
  match f.cfs_quota_us with
  | none => OSCONTAINER_ERROR
  | some quota => quota

/-- `CgroupV1Subsystem::cpu_period` (lines 399-408). -/
def cpu_period (f : CpuReads) : Int :=
  match f.cfs_period_us with
  | none => OSCONTAINER_ERROR
  | some period => period

/-- `CgroupV1Subsystem::cpu_shares` (lines 420-432). -/
def cpu_shares (f : CpuReads) : Int :=
  match f.shares with
  | none => OSCONTAINER_ERROR
  | some shares => if shares = 1024 then -1 else shares

/-- The outcome of the reads on the pids controller: `pids.max` is scanned as
a string, `pids.current` as a `jlong`. -/
structure PidsReads where
  max : Option (List Char)
  current : Option Int
deriving DecidableEq, Repr

/-- `CgroupV1Subsystem::pids_max` (lines 454-458).  `pids` is `none` when the
`_pids` controller is null.  `limit_from_str` is a member of the base class that
is not among the sources; it receives what `pids_max_val()` returned. -/
def pids_max (limit_from_str : Option (List Char) → Int) (pids : Option PidsReads) : Int :=
  match pids with
  | none => OSCONTAINER_ERROR
  | some f =>
    let pidsmax_str := f.max
    limit_from_str pidsmax_str

/-- `CgroupV1Subsystem::pids_current` (lines 468-478). -/
def pids_current (pids : Option PidsReads) : Int :=
  match pids with
  | none => OSCONTAINER_ERROR
  | some f =>
    match f.current with
    | none => OSCONTAINER_ERROR
    | some pids_current => pids_current

/-! ## `print_version_specific_info` (lines 348-356) -/

/-- `CgroupV1Subsystem::print_version_specific_info`: the calls
`OSContainer::print_container_helper(st, value, label)` it makes, in order, each
as the pair of the value and the label passed. -/
def print_version_specific_info (f : MemoryReads) (physical_memory : Nat) :
    List (Int × String) :=
  let kmem_usage := kernel_memory_usage_in_bytes f
  let kmem_limit := kernel_memory_limit_in_bytes f physical_memory
  let kmem_max_usage := kernel_memory_max_usage_in_bytes f
  [(kmem_usage, "kernel_memory_usage_in_bytes"),
   (kmem_limit, "kernel_memory_max_usage_in_bytes"),
   (kmem_max_usage, "kernel_memory_limit_in_bytes")]

/-- The three pairs in which every label names the query that produced the
value: each kernel-memory query under its own name. -/
def spec_version_specific_info (f : MemoryReads) (physical_memory : Nat) :
    List (Int × String) :=
  [(kernel_memory_usage_in_bytes f, "kernel_memory_usage_in_bytes"),
   (kernel_memory_limit_in_bytes f physical_memory, "kernel_memory_limit_in_bytes"),
   (kernel_memory_max_usage_in_bytes f, "kernel_memory_max_usage_in_bytes")]

/-! ## The composition rule of the specification -/

/-- The path composition as the specification words it (section 4.1): no path
when the root or the cgroup path is absent; for root `/` the mount point
followed by the cgroup path, or the mount point alone when the cgroup path is
`/`; the mount point when root and cgroup path are equal; the mount point
followed by the rest of the cgroup path when the root is a strict prefix of it;
no path otherwise. -/
def spec_compose (root : Option (List Char)) (mountPoint : List Char)
    (cgroupPath : Option (List Char)) : Option (List Char) :=
  match root, cgroupPath with
  | some r, some cg =>
    if r = ['/'] then (if cg = ['/'] then some mountPoint else some (mountPoint ++ cg))
    else if r = cg then some mountPoint
    else if r.isPrefixOf cg then some (mountPoint ++ cg.drop r.length)
    else none
  | _, _ => none

/-- An example state of the memory controller's files: a 1 GiB memory limit,
no swap-inclusive limit (the kernel's "unlimited" value), swappiness 0, no
hierarchical accounting. -/
def exampleMemoryReads : MemoryReads :=
  { limit_in_bytes := some 1073741824
    usage_in_bytes := some 268435456
    max_usage_in_bytes := some 536870912
    soft_limit_in_bytes := some 9223372036854771712
    memsw_limit_in_bytes := some 9223372036854771712
    memsw_usage_in_bytes := some 268435456
    swappiness := some 0
    stat_rss := some 134217728
    stat_cache := some 134217728
    stat_hierarchical_memory_limit := some 1073741824
    stat_hierarchical_memsw_limit := some 9223372036854771712
    kmem_usage_in_bytes := some 4194304
    kmem_limit_in_bytes := some 9223372036854771712
    kmem_max_usage_in_bytes := some 8388608
    is_hierarchical := false }

/-! ## Properties of `processor_count` -/

set_option maxRecDepth 8192 in
/-- C1 (code at the failing input): with 64 host CPUs, a quota of 34000001 us
and a period of 1000000 us the code returns 34, whereas the exact ceiling of
quota / period, clamped to the host count, is 35: `(float)34000001` is
34000000, so the binary32 quotient is exactly 34. -/
theorem processor_count_below_exact_ceiling :
    ∀ oor : Int, processor_count oor 64 34000001 1000000 = 34 ∧
      spec_processorCount 64 34000001 1000000 = 35 := by
  intro oor
  have hcode : ceilf (fdiv32 (i2f 34000001) (i2f 1000000)) = ⟨34, 1⟩ := by decide
  have hspec : ⌈(34000001 : ℚ) / (1000000 : ℚ)⌉ = 35 := by
    rw [Int.ceil_eq_iff]; norm_num
  constructor
  · simp [processor_count, processor_count_with, hcode, f2i]
  · simp [spec_processorCount, hspec]

set_option maxRecDepth 8192 in
/-- C2: whatever the quota and the period are (negative sentinels and quotas
up to the largest `int` included), and whatever `int` an out-of-range
conversion delivers, `processor_count` returns at most `host_cpus`; with 2 host
CPUs, quota 500000 and period 100000 it returns 2. -/
theorem processor_count_le_host_cpus :
    (∀ oor host_cpus quota period : Int,
      processor_count oor host_cpus quota period ≤ host_cpus) ∧
    (∀ oor : Int, processor_count oor 2 500000 100000 = 2) := by
  constructor
  · intro oor host_cpus quota period
    simp only [processor_count, processor_count_with]
    exact min_le_left _ _
  · intro oor
    have hcode : ceilf (fdiv32 (i2f 500000) (i2f 100000)) = ⟨5, 1⟩ := by decide
    simp [processor_count, processor_count_with, hcode, f2i]

/-- C3: when `quota <= -1` or `period <= 0` the result is `host_cpus`, and it
is so for every division operator put in place of the `float` division: the
quotient is never asked for. -/
theorem processor_count_without_quota (fdiv : Flt → Flt → Flt)
    (oor host_cpus quota period : Int) (hguard : quota ≤ -1 ∨ period ≤ 0) :
    processor_count_with fdiv oor host_cpus quota period = host_cpus := by
  have hg : ¬ (quota > -1 ∧ period > 0) := by omega
  simp [processor_count_with, hg]

/-- C3 at `host_cpus = 4`, `quota = -1`, `period = 100000`: the count is 4. -/
theorem processor_count_without_quota_witness :
    ((-1 : Int) ≤ -1 ∨ (100000 : Int) ≤ 0) ∧ processor_count 0 4 (-1) 100000 = 4 :=
  ⟨Or.inl (by decide),
    processor_count_without_quota fdiv32 0 4 (-1) 100000 (Or.inl (by decide))⟩

set_option maxRecDepth 8192 in
/-- C4 (code at the failing input): with 64 host CPUs, a quota of 50000001 us
and a period of 1000000 us the returned count `r` is 50, below the host count,
and `r * period` is 50000000, less than the quota. -/
theorem processor_count_under_provisions :
    ∀ oor : Int, processor_count oor 64 50000001 1000000 = 50 ∧
      processor_count oor 64 50000001 1000000 < 64 ∧
      processor_count oor 64 50000001 1000000 * 1000000 < 50000001 := by
  intro oor
  have hcode : ceilf (fdiv32 (i2f 50000001) (i2f 1000000)) = ⟨50, 1⟩ := by decide
  have hr : processor_count oor 64 50000001 1000000 = 50 := by
    simp [processor_count, processor_count_with, hcode, f2i]
  rw [hr]
  decide

/-! ## Properties of `set_subsystem_path` -/

/-- Allocation leaves the strings of the existing buffers as they are. -/
theorem cstr_append_of_lt (h : Heap) (s : List Char) (p : Ptr) (hp : p.buf < h.length) :
    cstr (h ++ [s]) p = cstr h p := by
  unfold cstr
  rw [List.getD_append _ _ _ _ hp]

/-- The pointer `os::strdup` returns designates the copy. -/
theorem cstr_append_new (h : Heap) (s : List Char) :
    cstr (h ++ [s]) ⟨h.length, 0⟩ = s := by
  simp [cstr, List.getD_eq_getElem?_getD]

/-- The heap and the controller the constructor yields. -/
theorem construct_eq (h : Heap) (R M : Ptr) (hM : M.buf < h.length) :
    CgroupV1Controller.construct h R M =
      (h ++ [cstr h R] ++ [cstr h M],
        { _root := some ⟨h.length, 0⟩, _mount_point := some ⟨h.length + 1, 0⟩,
          _path := none, _cgroup_path := none }) := by
  simp [CgroupV1Controller.construct, os_strdup, cstr_append_of_lt h _ M hM]

/-- The state after construction, as far as the strings go: root and mount
point are copies of `R` and `M` in buffers of their own, and a pointer `C` of the
heap before construction still reads the same. -/
theorem construct_spec (h : Heap) (R M C : Ptr) (hM : M.buf < h.length)
    (hC : C.buf < h.length) :
    ∃ H c, CgroupV1Controller.construct h R M = (H, c) ∧
      c._root = some ⟨h.length, 0⟩ ∧ c._mount_point = some ⟨h.length + 1, 0⟩ ∧
      cstr H ⟨h.length, 0⟩ = cstr h R ∧ cstr H ⟨h.length + 1, 0⟩ = cstr h M ∧
      cstr H C = cstr h C := by
  refine ⟨_, _, construct_eq h R M hM, rfl, rfl, ?_, ?_, ?_⟩
  · have hlen : h.length < (h ++ [cstr h R]).length := by simp
    rw [cstr_append_of_lt _ _ _ hlen, cstr_append_new]
  · have := cstr_append_new (h ++ [cstr h R]) (cstr h M)
    simpa using this
  · rw [cstr_append_of_lt _ _ _ (by simp; omega), cstr_append_of_lt _ _ _ hC]

/-- A constructed controller is fresh. -/
theorem construct_fresh (h : Heap) (R M : Ptr) :
    (CgroupV1Controller.construct h R M).2.Fresh := by
  simp [CgroupV1Controller.construct, os_strdup, CgroupV1Controller.Fresh]

/-- Root `/`: the call succeeds and stores a copy of the mount point, followed
by the cgroup path unless that is `/`. -/
theorem set_path_root_slash (h : Heap) (c : CgroupV1Controller) (r m g : Ptr)
    (hr : c._root = some r) (hm : c._mount_point = some m) (hs : cstr h r = ['/']) :
    c.set_subsystem_path h (some g) =
      some (h ++ [if cstr h g ≠ ['/'] then cstr h m ++ cstr h g else cstr h m],
        { c with _path := some ⟨h.length, 0⟩ }) := by
  simp only [CgroupV1Controller.set_subsystem_path, hr, hm, hs, if_true, os_strdup,
    List.nil_append]

/-- Root other than `/` and equal to the cgroup path: the call stores a copy of
the mount point. -/
theorem set_path_root_eq (h : Heap) (c : CgroupV1Controller) (r m g : Ptr)
    (hr : c._root = some r) (hm : c._mount_point = some m) (hs : cstr h r ≠ ['/'])
    (he : cstr h r = cstr h g) :
    c.set_subsystem_path h (some g) =
      some (h ++ [cstr h m], { c with _path := some ⟨h.length, 0⟩ }) := by
  simp only [CgroupV1Controller.set_subsystem_path, hr, hm, os_strdup, List.nil_append]
  simp [← he, hs]

/-- Root other than `/` and different from the cgroup path, root at the start of
its buffer: `strstr` returns a pointer into the cgroup path's buffer, which is
never `_root`, so the call changes nothing. -/
theorem set_path_other (h : Heap) (c : CgroupV1Controller) (r g : Ptr)
    (hr : c._root = some r) (hoff : r.off = 0) (hs : cstr h r ≠ ['/'])
    (he : cstr h r ≠ cstr h g) :
    c.set_subsystem_path h (some g) = some (h, c) := by
  simp only [CgroupV1Controller.set_subsystem_path, hr, hs, he, if_false]
  cases hp : strstr h g r with
  | none => rfl
  | some p =>
    simp only []
    split
    · rename_i hpr
      exfalso
      subst hpr
      unfold strstr at hp
      cases hf : findSub (cstr h g) (cstr h p) with
      | none => simp [hf] at hp
      | some i =>
        simp only [hf, Option.map_some', Option.some.injEq] at hp
        have hgp : g = p := by
          cases g
          cases p
          simp only [Ptr.mk.injEq] at hp hoff ⊢
          omega
        exact he (by rw [hgp])
    · rfl

/-- A null root or a null cgroup path: the call changes nothing. -/
theorem set_path_absent (h : Heap) (c : CgroupV1Controller) (cg : Option Ptr)
    (habs : c._root = none ∨ cg = none) :
    c.set_subsystem_path h cg = some (h, c) := by
  unfold CgroupV1Controller.set_subsystem_path
  rcases habs with h1 | h1
  · simp [h1]
  · subst h1
    cases c._root <;> rfl

/-- C5: for a controller constructed from root `R` and mount point `M`
(strings of the heap at construction), `set_subsystem_path` with a cgroup path
that reads the same as `R` succeeds, and `subsystem_path()` then reads exactly as
`M`; `R` may be `/`. -/
theorem subsystem_path_root_eq_cgroup_path (h : Heap) (R M C : Ptr)
    (hM : M.buf < h.length) (hC : C.buf < h.length) (hCR : cstr h C = cstr h R) :
    ∃ h1 c1,
      (CgroupV1Controller.construct h R M).2.set_subsystem_path
        (CgroupV1Controller.construct h R M).1 (some C) = some (h1, c1) ∧
      c1.subsystem_path h1 = some (cstr h M) := by
  obtain ⟨H, c, hHc, hcr, hcm, hr, hm, hc⟩ := construct_spec h R M C hM hC
  rw [hHc]
  by_cases hs : cstr h R = ['/']
  · refine ⟨_, _, set_path_root_slash H c _ _ C hcr hcm (hr.trans hs), ?_⟩
    have hcs : cstr H C = ['/'] := by rw [hc, hCR, hs]
    simp only [CgroupV1Controller.subsystem_path, Option.map_some', cstr_append_new, hcs, hm,
      ne_eq, not_true_eq_false, if_false]
  · refine ⟨_, _, set_path_root_eq H c _ _ C hcr hcm (by rw [hr]; exact hs)
      (by rw [hr, hc, hCR]), ?_⟩
    simp only [CgroupV1Controller.subsystem_path, Option.map_some', cstr_append_new, hm]

/-- C5 on the example heap: root `/docker`, mount point
`/sys/fs/cgroup/memory`, and the root's own pointer passed as cgroup path. -/
theorem subsystem_path_root_eq_cgroup_path_witness :
    (1 < exampleHeap.length ∧ 0 < exampleHeap.length) ∧
    ∃ h1 c1,
      (CgroupV1Controller.construct exampleHeap ⟨0, 0⟩ ⟨1, 0⟩).2.set_subsystem_path
        (CgroupV1Controller.construct exampleHeap ⟨0, 0⟩ ⟨1, 0⟩).1 (some ⟨0, 0⟩)
          = some (h1, c1) ∧
      c1.subsystem_path h1 = some (cstr exampleHeap ⟨1, 0⟩) :=
  ⟨by decide,
    subsystem_path_root_eq_cgroup_path exampleHeap ⟨0, 0⟩ ⟨1, 0⟩ ⟨0, 0⟩
      (by decide) (by decide) rfl⟩

/-- C6: for a controller constructed with a root that reads `/`, and every
non-null cgroup path `C`, `set_subsystem_path(C)` succeeds and the path reads as
the mount point followed by `C` when `C` is not `/`, and as the mount point alone
when `C` is `/`. -/
theorem subsystem_path_root_slash (h : Heap) (R M C : Ptr)
    (hM : M.buf < h.length) (hC : C.buf < h.length) (hR : cstr h R = ['/']) :
    ∃ h1 c1,
      (CgroupV1Controller.construct h R M).2.set_subsystem_path
        (CgroupV1Controller.construct h R M).1 (some C) = some (h1, c1) ∧
      c1.subsystem_path h1 =
        some (if cstr h C = ['/'] then cstr h M else cstr h M ++ cstr h C) := by
  obtain ⟨H, c, hHc, hcr, hcm, hr, hm, hc⟩ := construct_spec h R M C hM hC
  rw [hHc]
  refine ⟨_, _, set_path_root_slash H c _ _ C hcr hcm (hr.trans hR), ?_⟩
  simp only [CgroupV1Controller.subsystem_path, Option.map_some', cstr_append_new, hc, hm]
  by_cases hs : cstr h C = ['/'] <;> simp [hs]

/-- C6 on the example heap: root `/`, cgroup path `/docker/app`. -/
theorem subsystem_path_root_slash_witness :
    (1 < exampleHeap.length ∧ 2 < exampleHeap.length ∧ cstr exampleHeap ⟨3, 0⟩ = ['/']) ∧
    ∃ h1 c1,
      (CgroupV1Controller.construct exampleHeap ⟨3, 0⟩ ⟨1, 0⟩).2.set_subsystem_path
        (CgroupV1Controller.construct exampleHeap ⟨3, 0⟩ ⟨1, 0⟩).1 (some ⟨2, 0⟩)
          = some (h1, c1) ∧
      c1.subsystem_path h1 =
        some (if cstr exampleHeap ⟨2, 0⟩ = ['/'] then cstr exampleHeap ⟨1, 0⟩
          else cstr exampleHeap ⟨1, 0⟩ ++ cstr exampleHeap ⟨2, 0⟩) :=
  ⟨by decide,
    subsystem_path_root_slash exampleHeap ⟨3, 0⟩ ⟨1, 0⟩ ⟨2, 0⟩
      (by decide) (by decide) (by decide)⟩

/-- C7 (code at the failing input): root `/docker`, mount point
`/sys/fs/cgroup/memory`, cgroup path `/docker/app` in a buffer of its own. The
root is a strict prefix of the cgroup path, yet the call leaves the path null;
the rule of the claim gives `/sys/fs/cgroup/memory/app`. -/
theorem subsystem_path_strict_prefix_unresolved :
    (cstr exampleHeap ⟨0, 0⟩).isPrefixOf (cstr exampleHeap ⟨2, 0⟩) = true ∧
    (CgroupV1Controller.construct exampleHeap ⟨0, 0⟩ ⟨1, 0⟩).2.set_subsystem_path
        (CgroupV1Controller.construct exampleHeap ⟨0, 0⟩ ⟨1, 0⟩).1 (some ⟨2, 0⟩)
      = some (CgroupV1Controller.construct exampleHeap ⟨0, 0⟩ ⟨1, 0⟩) ∧
    (CgroupV1Controller.construct exampleHeap ⟨0, 0⟩ ⟨1, 0⟩).2.subsystem_path
        (CgroupV1Controller.construct exampleHeap ⟨0, 0⟩ ⟨1, 0⟩).1 = none := by
  decide

/-- C8: on a fresh controller the path stays null, and the call changes
nothing at all, when the root or the cgroup path is null, and when the root is
not `/`, differs from the cgroup path and is not a prefix of it. -/
theorem subsystem_path_stays_unresolved (h : Heap) (c : CgroupV1Controller)
    (cg : Option Ptr) (hfresh : c.Fresh)
    (hout : c._root = none ∨ cg = none ∨
      ∃ r g, c._root = some r ∧ cg = some g ∧ cstr h r ≠ ['/'] ∧
        cstr h r ≠ cstr h g ∧ (cstr h r).isPrefixOf (cstr h g) = false) :
    c.set_subsystem_path h cg = some (h, c) ∧ c.subsystem_path h = none := by
  have hnone : c.subsystem_path h = none := by
    simp [CgroupV1Controller.subsystem_path, hfresh.1]
  refine ⟨?_, hnone⟩
  rcases hout with h1 | h1 | ⟨r, g, hr, hg, hs, hne, _⟩
  · exact set_path_absent h c cg (Or.inl h1)
  · exact set_path_absent h c cg (Or.inr h1)
  · subst hg
    exact set_path_other h c r g hr (hfresh.2 r hr) hs hne

/-- C8 on the example heap: root `/docker/app`, cgroup path `/docker`, which
lies outside the root. -/
theorem subsystem_path_stays_unresolved_witness :
    (CgroupV1Controller.construct exampleHeap ⟨2, 0⟩ ⟨1, 0⟩).2.Fresh ∧
    (CgroupV1Controller.construct exampleHeap ⟨2, 0⟩ ⟨1, 0⟩).2.set_subsystem_path
        (CgroupV1Controller.construct exampleHeap ⟨2, 0⟩ ⟨1, 0⟩).1 (some ⟨0, 0⟩)
      = some (CgroupV1Controller.construct exampleHeap ⟨2, 0⟩ ⟨1, 0⟩) ∧
    (CgroupV1Controller.construct exampleHeap ⟨2, 0⟩ ⟨1, 0⟩).2.subsystem_path
        (CgroupV1Controller.construct exampleHeap ⟨2, 0⟩ ⟨1, 0⟩).1 = none :=
  ⟨construct_fresh exampleHeap ⟨2, 0⟩ ⟨1, 0⟩,
    subsystem_path_stays_unresolved _ _ (some ⟨0, 0⟩)
      (construct_fresh exampleHeap ⟨2, 0⟩ ⟨1, 0⟩)
      (Or.inr (Or.inr ⟨⟨4, 0⟩, ⟨0, 0⟩, rfl, rfl, by decide, by decide, by decide⟩))⟩

/-! ## Properties of the memory limit -/

/-- C9: when the read of `memory.limit_in_bytes` gives `raw`, the host memory
is at most `2 ^ 63` and `raw` is below it, the result is `raw`, for either value
of the hierarchy flag and every outcome of the `memory.stat` read. -/
theorem read_memory_limit_below_host (hostMem raw : Nat) (hier : Bool) (stat : Option Nat)
    (hhost : hostMem ≤ 2 ^ 63) (hraw : raw < hostMem) :
    read_memory_limit_in_bytes (some raw) hier stat hostMem = (raw : Int) := by
  have h1 : ¬ raw ≥ hostMem := by omega
  have h2 : raw % 2 ^ 64 = raw := Nat.mod_eq_of_lt (by omega)
  have h3 : raw < 2 ^ 63 := by omega
  simp only [read_memory_limit_in_bytes, h1, if_false, toJlong, h2, h3, if_true]

/-- C9 at `hostMem = 2 ^ 63`, `raw = hostMem - 1`, hierarchical controller whose
`memory.stat` field reads 5. -/
theorem read_memory_limit_below_host_witness :
    ((2 ^ 63 : Nat) ≤ 2 ^ 63 ∧ (2 ^ 63 - 1 : Nat) < 2 ^ 63) ∧
    read_memory_limit_in_bytes (some (2 ^ 63 - 1)) true (some 5) (2 ^ 63)
      = ((2 ^ 63 - 1 : Nat) : Int) :=
  ⟨by decide,
    read_memory_limit_below_host (2 ^ 63) (2 ^ 63 - 1) true (some 5) (by decide) (by decide)⟩

/-- C10: when the read of `memory.limit_in_bytes` gives a value at or above the
host memory and the controller is not hierarchical, the result is `-1`, whatever
the `memory.stat` read would give. -/
theorem read_memory_limit_unlimited (hostMem raw : Nat) (stat : Option Nat)
    (hraw : raw ≥ hostMem) :
    read_memory_limit_in_bytes (some raw) false stat hostMem = -1 := by
  simp [read_memory_limit_in_bytes, hraw]

/-- C10 at `hostMem = 8 GiB` and the kernel's "no limit" value. -/
theorem read_memory_limit_unlimited_witness :
    (9223372036854771712 : Nat) ≥ 8589934592 ∧
    read_memory_limit_in_bytes (some 9223372036854771712) false none 8589934592 = -1 :=
  ⟨by decide, read_memory_limit_unlimited 8589934592 9223372036854771712 none (by decide)⟩

/-! ## Properties of the hierarchical and swap-inclusive limits -/

/-- C11 (counterexample): with a host memory of `2 ^ 63 + 1`, a raw limit at
the host memory and a hierarchical limit `h = 2 ^ 63` below it, the result is
`(jlong)h = -2 ^ 63`, not `h`. -/
theorem read_memory_limit_hierarchical_wraps :
    (2 ^ 63 : Nat) < 2 ^ 63 + 1 ∧
    read_memory_limit_in_bytes (some (2 ^ 63 + 1)) true (some (2 ^ 63)) (2 ^ 63 + 1)
      = -(2 ^ 63 : Int) ∧
    read_memory_limit_in_bytes (some (2 ^ 63 + 1)) true (some (2 ^ 63)) (2 ^ 63 + 1)
      ≠ ((2 ^ 63 : Nat) : Int) := by
  decide

/-- C11 (amended): for a host memory of at most `2 ^ 63` and a raw limit at or
above it on a hierarchical controller, the result is decided by the
`hierarchical_memory_limit` read: `h` when `h` is below the host memory, `-1`
when it is not, and `OSCONTAINER_ERROR` when the field cannot be read. -/
theorem read_memory_limit_hierarchical (hostMem raw : Nat) (stat : Option Nat)
    (hhost : hostMem ≤ 2 ^ 63) (hraw : raw ≥ hostMem) :
    read_memory_limit_in_bytes (some raw) true stat hostMem =
      match stat with
      | none => OSCONTAINER_ERROR
      | some h => if h < hostMem then (h : Int) else -1 := by
  cases stat with
  | none => simp [read_memory_limit_in_bytes, hraw]
  | some h =>
    by_cases hh : h < hostMem
    · have h2 : h % 2 ^ 64 = h := Nat.mod_eq_of_lt (by omega)
      have h3 : h < 2 ^ 63 := by omega
      have h4 : ¬ h ≥ hostMem := by omega
      simp only [read_memory_limit_in_bytes, hraw, if_true, h4, if_false, toJlong, h2, h3, hh]
    · have h4 : h ≥ hostMem := by omega
      simp only [read_memory_limit_in_bytes, hraw, if_true, h4, hh, if_false]

/-- C11 (amended) at an 8 GiB host, a raw limit of the kernel's "unlimited"
value and a hierarchical limit of 1 GiB: the result is 1 GiB. -/
theorem read_memory_limit_hierarchical_witness :
    ((8589934592 : Nat) ≤ 2 ^ 63 ∧ (9223372036854771712 : Nat) ≥ 8589934592) ∧
    read_memory_limit_in_bytes (some 9223372036854771712) true (some 1073741824) 8589934592
      = 1073741824 :=
  ⟨by decide,
    read_memory_limit_hierarchical 8589934592 9223372036854771712 (some 1073741824)
      (by decide) (by decide)⟩

/-- C12: for every state of the files, `read_mem_swap` is the memory-limit
decision applied to the `memory.memsw.limit_in_bytes` read, the
`hierarchical_memsw_limit` read and the bound `host_swap + physical_memory` (the
`julong` sum the code forms; it is the plain sum when that fits 64 bits), with
the same hierarchy flag. -/
theorem read_mem_swap_same_shape (f : MemoryReads) (physical_memory host_swap : Nat) :
    read_mem_swap f physical_memory host_swap =
      read_memory_limit_in_bytes f.memsw_limit_in_bytes f.is_hierarchical
        f.stat_hierarchical_memsw_limit ((host_swap + physical_memory) % 2 ^ 64) ∧
    (physical_memory + host_swap < 2 ^ 64 →
      read_mem_swap f physical_memory host_swap =
        read_memory_limit_in_bytes f.memsw_limit_in_bytes f.is_hierarchical
          f.stat_hierarchical_memsw_limit (physical_memory + host_swap)) := by
  have key : read_mem_swap f physical_memory host_swap =
      read_memory_limit_in_bytes f.memsw_limit_in_bytes f.is_hierarchical
        f.stat_hierarchical_memsw_limit ((host_swap + physical_memory) % 2 ^ 64) := by
    unfold read_mem_swap read_memory_limit_in_bytes
    cases f.memsw_limit_in_bytes <;> cases f.stat_hierarchical_memsw_limit <;>
      cases f.is_hierarchical <;> rfl
  refine ⟨key, fun hfit => ?_⟩
  rw [key, Nat.add_comm host_swap physical_memory, Nat.mod_eq_of_lt hfit]

/-- C12 on the example files with an 8 GiB host and 2 GiB of swap. -/
theorem read_mem_swap_same_shape_witness :
    (8589934592 + 2147483648 < 2 ^ 64) ∧
    read_mem_swap exampleMemoryReads 8589934592 2147483648 =
      read_memory_limit_in_bytes exampleMemoryReads.memsw_limit_in_bytes
        exampleMemoryReads.is_hierarchical exampleMemoryReads.stat_hierarchical_memsw_limit
        (8589934592 + 2147483648) :=
  ⟨by decide,
    (read_mem_swap_same_shape exampleMemoryReads 8589934592 2147483648).2 (by decide)⟩

/-- C13 (counterexample): on the example files (memory limit 1 GiB, no
swap-inclusive limit, swappiness 0) with an 8 GiB host and 2 GiB of swap,
`memory_and_swap_limit_in_bytes` returns `-1` while
`read_memory_limit_in_bytes` returns 1 GiB. -/
theorem memory_and_swap_limit_swappiness_zero_unlimited :
    exampleMemoryReads.swappiness = some 0 ∧
    memory_and_swap_limit_in_bytes exampleMemoryReads 8589934592 2147483648 = -1 ∧
    read_memory_limit_in_bytes exampleMemoryReads.limit_in_bytes
      exampleMemoryReads.is_hierarchical exampleMemoryReads.stat_hierarchical_memory_limit
      8589934592 = 1073741824 := by
  decide

/-- C13 (amended): when `memory.swappiness` reads as 0 and `read_mem_swap` does
not return `-1`, `memory_and_swap_limit_in_bytes` returns what
`read_memory_limit_in_bytes` returns, whatever the swap-inclusive files hold. -/
theorem memory_and_swap_limit_swappiness_zero (f : MemoryReads)
    (physical_memory host_swap : Nat) (hswp : f.swappiness = some 0)
    (hlim : read_mem_swap f physical_memory host_swap ≠ -1) :
    memory_and_swap_limit_in_bytes f physical_memory host_swap =
      read_memory_limit_in_bytes f.limit_in_bytes f.is_hierarchical
        f.stat_hierarchical_memory_limit physical_memory := by
  have h0 : read_mem_swappiness f = 0 := by
    simp [read_mem_swappiness, hswp, toJlong]
  simp [memory_and_swap_limit_in_bytes, hlim, h0]

/-- C13 (amended) on the example files with the swap-inclusive limit set to
2 GiB: the result is the 1 GiB memory limit. -/
theorem memory_and_swap_limit_swappiness_zero_witness :
    ({ exampleMemoryReads with memsw_limit_in_bytes := some 2147483648 }.swappiness = some 0 ∧
      read_mem_swap { exampleMemoryReads with memsw_limit_in_bytes := some 2147483648 }
        8589934592 2147483648 ≠ -1) ∧
    memory_and_swap_limit_in_bytes
        { exampleMemoryReads with memsw_limit_in_bytes := some 2147483648 }
        8589934592 2147483648 =
      read_memory_limit_in_bytes (some 1073741824) false (some 1073741824) 8589934592 :=
  ⟨by decide,
    memory_and_swap_limit_swappiness_zero
      { exampleMemoryReads with memsw_limit_in_bytes := some 2147483648 }
      8589934592 2147483648 rfl (by decide)⟩

/-- C14: for every state of the files, `memory_and_swap_limit_in_bytes` is `-1`
when `read_mem_swap` is `-1`; otherwise it is the `read_memory_limit_in_bytes`
value when the swappiness reads as 0 or `read_mem_swap` is `OSCONTAINER_ERROR`;
otherwise it is the `read_mem_swap` value. -/
theorem memory_and_swap_limit_case_table (f : MemoryReads)
    (physical_memory host_swap : Nat) :
    memory_and_swap_limit_in_bytes f physical_memory host_swap =
      if read_mem_swap f physical_memory host_swap = -1 then -1
      else if read_mem_swappiness f = 0 ∨
          read_mem_swap f physical_memory host_swap = OSCONTAINER_ERROR then
        read_memory_limit_in_bytes f.limit_in_bytes f.is_hierarchical
          f.stat_hierarchical_memory_limit physical_memory
      else read_mem_swap f physical_memory host_swap := by
  unfold memory_and_swap_limit_in_bytes
  by_cases h1 : read_mem_swap f physical_memory host_swap = -1
  · simp [h1]
  · simp only [h1, if_false]

/-- C15: for every state of the files and every value `memory_limit` of the
base class's memory limit, `memory_and_swap_usage_in_bytes` is the
`memory.memsw.usage_in_bytes` read exactly when the memory-and-swap limit and the
memory limit are both positive and the former exceeds the latter; in every other
case it is `memory_usage_in_bytes()`. -/
theorem memory_and_swap_usage_cases (f : MemoryReads) (physical_memory host_swap : Nat)
    (memory_limit : Int) :
    memory_and_swap_usage_in_bytes f physical_memory host_swap memory_limit =
      if memory_and_swap_limit_in_bytes f physical_memory host_swap > 0 ∧ memory_limit > 0 ∧
          memory_and_swap_limit_in_bytes f physical_memory host_swap > memory_limit then
        memory_swap_usage_impl f
      else memory_usage_in_bytes f := by
  unfold memory_and_swap_usage_in_bytes
  by_cases h1 : memory_and_swap_limit_in_bytes f physical_memory host_swap > 0 ∧
      memory_limit > 0
  · by_cases h2 : memory_and_swap_limit_in_bytes f physical_memory host_swap > memory_limit
    · have h3 : memory_and_swap_limit_in_bytes f physical_memory host_swap - memory_limit > 0 := by
        omega
      simp [h1, h2, h3]
    · have h3 : ¬ memory_and_swap_limit_in_bytes f physical_memory host_swap - memory_limit > 0 := by
        omega
      rw [if_pos h1]
      simp only [h3, if_false]
      rw [if_neg (fun h => h2 h.2.2)]
  · rw [if_neg h1, if_neg (fun h => h1 ⟨h.1, h.2.1⟩)]

/-! ## Properties of the cpu shares and the plain limits -/

/-- C16: for every value `v` read from `cpu.shares` (and every outcome of the
other cpu reads) `cpu_shares` returns `-1` when `v` is 1024 and `v` otherwise;
1024 gives `-1` and 2048 gives 2048. -/
theorem cpu_shares_normalised :
    (∀ (q p : Option Int) (v : Int),
      cpu_shares ⟨q, p, some v⟩ = if v = 1024 then -1 else v) ∧
    (∀ q p : Option Int, cpu_shares ⟨q, p, some 1024⟩ = -1) ∧
    (∀ q p : Option Int, cpu_shares ⟨q, p, some 2048⟩ = 2048) := by
  refine ⟨fun q p v => rfl, fun q p => rfl, fun q p => rfl⟩

/-- C17 (counterexample): with a host memory of `2 ^ 63 + 1` and a raw value
of `2 ^ 63`, which is below it, the soft limit and the kernel memory limit are
`-2 ^ 63`, not the raw value. -/
theorem plain_limits_wrap :
    (2 ^ 63 : Nat) < 2 ^ 63 + 1 ∧
    memory_soft_limit_in_bytes { exampleMemoryReads with soft_limit_in_bytes := some (2 ^ 63) }
      (2 ^ 63 + 1) = -(2 ^ 63 : Int) ∧
    kernel_memory_limit_in_bytes { exampleMemoryReads with kmem_limit_in_bytes := some (2 ^ 63) }
      (2 ^ 63 + 1) = -(2 ^ 63 : Int) := by
  decide

/-- C17 (amended): for a host memory of at most `2 ^ 63`, and every state of
the files in which the own limit file reads `raw`, the soft limit and the kernel
memory limit are `-1` when `raw` is at or above the host memory and `raw`
otherwise, for either value of the hierarchy flag and whatever `memory.stat`
holds. -/
theorem plain_limits_threshold (f : MemoryReads) (hostMem raw : Nat)
    (hhost : hostMem ≤ 2 ^ 63) :
    (f.soft_limit_in_bytes = some raw →
      memory_soft_limit_in_bytes f hostMem = if raw ≥ hostMem then -1 else (raw : Int)) ∧
    (f.kmem_limit_in_bytes = some raw →
      kernel_memory_limit_in_bytes f hostMem = if raw ≥ hostMem then -1 else (raw : Int)) := by
  have hcast : ¬ raw ≥ hostMem → toJlong raw = (raw : Int) := by
    intro h
    have h2 : raw % 2 ^ 64 = raw := Nat.mod_eq_of_lt (by omega)
    have h3 : raw < 2 ^ 63 := by omega
    simp only [toJlong, h2, h3, if_true]
  constructor
  · intro hf
    by_cases h : raw ≥ hostMem
    · simp only [memory_soft_limit_in_bytes, hf, h, if_true]
    · simp only [memory_soft_limit_in_bytes, hf, h, if_false, hcast h]
  · intro hf
    by_cases h : raw ≥ hostMem
    · simp only [kernel_memory_limit_in_bytes, hf, h, if_true]
    · simp only [kernel_memory_limit_in_bytes, hf, h, if_false, hcast h]

/-- C17 (amended) on the example files with an 8 GiB host: both limit files
hold the kernel's "unlimited" value and both queries return `-1`. -/
theorem plain_limits_threshold_witness :
    ((8589934592 : Nat) ≤ 2 ^ 63 ∧
      exampleMemoryReads.soft_limit_in_bytes = some 9223372036854771712 ∧
      exampleMemoryReads.kmem_limit_in_bytes = some 9223372036854771712) ∧
    memory_soft_limit_in_bytes exampleMemoryReads 8589934592 = -1 ∧
    kernel_memory_limit_in_bytes exampleMemoryReads 8589934592 = -1 :=
  ⟨by decide,
    (plain_limits_threshold exampleMemoryReads 8589934592 9223372036854771712
      (by decide)).1 rfl,
    (plain_limits_threshold exampleMemoryReads 8589934592 9223372036854771712
      (by decide)).2 rfl⟩

/-! ## Failed reads and the result classes of `read_mem_swap` -/

/-- C18: whatever the other files hold, each numeric query returns exactly
`OSCONTAINER_ERROR` when the read of its own control file (or `memory.stat` key)
fails, `pids_max` and `pids_current` return it when the pids controller is null,
and `OSCONTAINER_ERROR` is negative and is not `-1`. -/
theorem failed_read_gives_error (f : MemoryReads) (c : CpuReads) (p : PidsReads)
    (physical_memory host_swap : Nat) (limit_from_str : Option (List Char) → Int) :
    read_memory_limit_in_bytes none f.is_hierarchical f.stat_hierarchical_memory_limit
      physical_memory = OSCONTAINER_ERROR ∧
    read_mem_swap { f with memsw_limit_in_bytes := none } physical_memory host_swap
      = OSCONTAINER_ERROR ∧
    memory_soft_limit_in_bytes { f with soft_limit_in_bytes := none } physical_memory
      = OSCONTAINER_ERROR ∧
    memory_usage_in_bytes { f with usage_in_bytes := none } = OSCONTAINER_ERROR ∧
    memory_max_usage_in_bytes { f with max_usage_in_bytes := none } = OSCONTAINER_ERROR ∧
    rss_usage_in_bytes { f with stat_rss := none } = OSCONTAINER_ERROR ∧
    cache_usage_in_bytes { f with stat_cache := none } = OSCONTAINER_ERROR ∧
    kernel_memory_usage_in_bytes { f with kmem_usage_in_bytes := none } = OSCONTAINER_ERROR ∧
    kernel_memory_limit_in_bytes { f with kmem_limit_in_bytes := none } physical_memory
      = OSCONTAINER_ERROR ∧
    kernel_memory_max_usage_in_bytes { f with kmem_max_usage_in_bytes := none }
      = OSCONTAINER_ERROR ∧
    cpu_quota { c with cfs_quota_us := none } = OSCONTAINER_ERROR ∧
    cpu_period { c with cfs_period_us := none } = OSCONTAINER_ERROR ∧
    cpu_shares { c with shares := none } = OSCONTAINER_ERROR ∧
    pids_current (some { p with current := none }) = OSCONTAINER_ERROR ∧
    pids_max limit_from_str none = OSCONTAINER_ERROR ∧
    pids_current none = OSCONTAINER_ERROR ∧
    OSCONTAINER_ERROR ≠ -1 ∧ OSCONTAINER_ERROR < 0 := by
  refine ⟨rfl, rfl, rfl, rfl, rfl, rfl, rfl, rfl, rfl, rfl, rfl, rfl, rfl, rfl, rfl, rfl, ?_, ?_⟩
  · decide
  · decide

/-- C19 (code at the failing input): when `memory.memsw.limit_in_bytes` reads
0 (8 GiB host, 2 GiB swap, no hierarchy) `read_mem_swap` returns 0, which is
neither a number above 0 and below the bound, nor `OSCONTAINER_ERROR`, nor
`-1`. -/
theorem read_mem_swap_returns_zero :
    read_mem_swap { exampleMemoryReads with memsw_limit_in_bytes := some 0 }
      8589934592 2147483648 = 0 ∧
    ¬ (0 < read_mem_swap { exampleMemoryReads with memsw_limit_in_bytes := some 0 }
      8589934592 2147483648) ∧
    read_mem_swap { exampleMemoryReads with memsw_limit_in_bytes := some 0 }
      8589934592 2147483648 ≠ OSCONTAINER_ERROR ∧
    read_mem_swap { exampleMemoryReads with memsw_limit_in_bytes := some 0 }
      8589934592 2147483648 ≠ -1 := by
  decide

/-! ## The path after a call on an arbitrary controller state -/

/-- C20 (counterexample): root `/docker`, mount point `/sys/fs/cgroup/memory`.
After a first call with `/docker` the path is the mount point; a second call
with `/`, for which the composition rule yields no path, leaves that path in
place, whereas the same call on the fresh controller leaves the path null. -/
theorem subsystem_path_keeps_earlier_path :
    spec_compose (some (cstr exampleHeap ⟨0, 0⟩)) (cstr exampleHeap ⟨1, 0⟩)
      (some (cstr exampleHeap ⟨3, 0⟩)) = none ∧
    (((CgroupV1Controller.construct exampleHeap ⟨0, 0⟩ ⟨1, 0⟩).2.set_subsystem_path
        (CgroupV1Controller.construct exampleHeap ⟨0, 0⟩ ⟨1, 0⟩).1 (some ⟨0, 0⟩)).bind
      (fun x => x.2.set_subsystem_path x.1 (some ⟨3, 0⟩))).map
        (fun x => x.2.subsystem_path x.1) = some (some (cstr exampleHeap ⟨1, 0⟩)) ∧
    ((CgroupV1Controller.construct exampleHeap ⟨0, 0⟩ ⟨1, 0⟩).2.set_subsystem_path
        (CgroupV1Controller.construct exampleHeap ⟨0, 0⟩ ⟨1, 0⟩).1 (some ⟨3, 0⟩)).map
        (fun x => x.2.subsystem_path x.1) = some none := by
  decide

/-- C20 (amended): for every controller state with a non-null mount point and
a root at the start of its buffer.  When root and cgroup path are non-null and
the root is `/` or equal to the cgroup path, the call succeeds and the path is
the composition rule's value for (root, mount point, cgroup path), whatever path
was held before.  When the root or the cgroup path is null, or the root is not
`/`, differs from the cgroup path and is not a prefix of it, the call changes
nothing, so the path held before stays. -/
theorem subsystem_path_after_call (h : Heap) (c : CgroupV1Controller) (m : Ptr)
    (cg : Option Ptr) (hm : c._mount_point = some m)
    (hoff : ∀ r, c._root = some r → r.off = 0) :
    ((∃ r g, c._root = some r ∧ cg = some g ∧
        (cstr h r = ['/'] ∨ cstr h r = cstr h g)) →
      ∃ h1 c1, c.set_subsystem_path h cg = some (h1, c1) ∧
        c1.subsystem_path h1 =
          spec_compose (c._root.map (cstr h)) (cstr h m) (cg.map (cstr h))) ∧
    ((c._root = none ∨ cg = none ∨
        ∃ r g, c._root = some r ∧ cg = some g ∧ cstr h r ≠ ['/'] ∧
          cstr h r ≠ cstr h g ∧ (cstr h r).isPrefixOf (cstr h g) = false) →
      c.set_subsystem_path h cg = some (h, c) ∧
        spec_compose (c._root.map (cstr h)) (cstr h m) (cg.map (cstr h)) = none) := by
  constructor
  · rintro ⟨r, g, hr, hg, hcase⟩
    subst hg
    by_cases hs : cstr h r = ['/']
    · refine ⟨_, _, set_path_root_slash h c r m g hr hm hs, ?_⟩
      simp only [CgroupV1Controller.subsystem_path, Option.map_some', cstr_append_new, hr,
        spec_compose, hs, if_true]
      by_cases hg : cstr h g = ['/'] <;> simp [hg]
    · have he : cstr h r = cstr h g := by
        rcases hcase with h1 | h1
        · exact absurd h1 hs
        · exact h1
      refine ⟨_, _, set_path_root_eq h c r m g hr hm hs he, ?_⟩
      simp only [CgroupV1Controller.subsystem_path, Option.map_some', cstr_append_new, hr,
        spec_compose, hs, if_false, he, if_true]
      simp [← he, hs]
  · rintro (h1 | h1 | ⟨r, g, hr, hg, hs, hne, hpre⟩)
    · exact ⟨set_path_absent h c cg (Or.inl h1), by simp [h1, spec_compose]⟩
    · refine ⟨set_path_absent h c cg (Or.inr h1), ?_⟩
      subst h1
      cases c._root <;> simp [spec_compose]
    · subst hg
      refine ⟨set_path_other h c r g hr (hoff r hr) hs hne, ?_⟩
      simp [hr, spec_compose, hs, hne, hpre]

/-- C20 (amended) on the example heap: on the controller whose path was
resolved by a first call with `/docker`, a call with `/docker` again yields the
rule's value, and a call with `/` changes nothing. -/
theorem subsystem_path_after_call_witness :
    ∃ H c m, (CgroupV1Controller.construct exampleHeap ⟨0, 0⟩ ⟨1, 0⟩).2.set_subsystem_path
        (CgroupV1Controller.construct exampleHeap ⟨0, 0⟩ ⟨1, 0⟩).1 (some ⟨0, 0⟩) = some (H, c) ∧
      c._path ≠ none ∧ c._mount_point = some m ∧ (∀ r, c._root = some r → r.off = 0) ∧
      (∃ h1 c1, c.set_subsystem_path H (some ⟨0, 0⟩) = some (h1, c1) ∧
        c1.subsystem_path h1 =
          spec_compose (c._root.map (cstr H)) (cstr H m) (some (cstr H ⟨0, 0⟩))) ∧
      c.set_subsystem_path H (some ⟨3, 0⟩) = some (H, c) :=
  ⟨_, _, ⟨5, 0⟩, rfl, by decide, rfl, by decide,
    (subsystem_path_after_call _ _ ⟨5, 0⟩ (some ⟨0, 0⟩) rfl (by decide)).1
      ⟨⟨4, 0⟩, ⟨0, 0⟩, rfl, rfl, Or.inr (by decide)⟩,
    ((subsystem_path_after_call _ _ ⟨5, 0⟩ (some ⟨3, 0⟩) rfl (by decide)).2
      (Or.inr (Or.inr ⟨⟨4, 0⟩, ⟨3, 0⟩, rfl, rfl, by decide, by decide, by decide⟩))).1⟩

/-! ## The lower bound of `processor_count` -/

/-- The count is at least 1 unless the guarded quotient was rounded up to a
value that does not fit an `int`: in every other case `quota_count` is a natural
number, and the host count replaces it when it is zero. -/
theorem processor_count_pos_or_out_of_range (oor host_cpus quota period : Int)
    (hhost : 0 < host_cpus) :
    1 ≤ processor_count oor host_cpus quota period ∨
      (quota > -1 ∧ period > 0 ∧
        2 ^ 31 ≤ (ceilf (fdiv32 (i2f quota) (i2f period))).num /
          (ceilf (fdiv32 (i2f quota) (i2f period))).den) := by
  by_cases hg : quota > -1 ∧ period > 0
  · by_cases hr : (ceilf (fdiv32 (i2f quota) (i2f period))).num /
        (ceilf (fdiv32 (i2f quota) (i2f period))).den < 2 ^ 31
    · left
      simp only [processor_count, processor_count_with, hg, and_self, if_true, f2i, hr]
      split
      · rename_i hne
        have : (0 : Int) ≤ (((ceilf (fdiv32 (i2f quota) (i2f period))).num /
          (ceilf (fdiv32 (i2f quota) (i2f period))).den : Nat) : Int) := Int.ofNat_nonneg _
        omega
      · omega
    · right
      exact ⟨hg.1, hg.2, by omega⟩
  · left
    simp only [processor_count, processor_count_with, hg, if_false]
    simp
    omega

set_option maxRecDepth 8192 in
/-- C21 (code at the failing input): with 8 host CPUs, a quota of 2147483647 and
a period of 1, `(float)quota` is `2 ^ 31`, which no `int` holds; the count is
then whatever the conversion delivers, clamped from above only.  With the
`INT_MIN` that x86-64 delivers the result is `-2147483648`, below 1; the exact
ceiling would give 8. -/
theorem processor_count_negative :
    (∀ oor : Int, processor_count oor 8 2147483647 1 = if oor = 0 then 8 else min 8 oor) ∧
    processor_count (-2147483648) 8 2147483647 1 = -2147483648 ∧
    ¬ (1 ≤ processor_count (-2147483648) 8 2147483647 1) ∧
    spec_processorCount 8 2147483647 1 = 8 := by
  have hcode : ceilf (fdiv32 (i2f 2147483647) (i2f 1)) = ⟨2147483648, 1⟩ := by decide
  have hall : ∀ oor : Int,
      processor_count oor 8 2147483647 1 = if oor = 0 then 8 else min 8 oor := by
    intro oor
    simp only [processor_count, processor_count_with, hcode, f2i]
    by_cases h0 : oor = 0
    · simp [h0]
    · simp [h0]
  refine ⟨hall, ?_, ?_, ?_⟩
  · rw [hall]; decide
  · rw [hall]; decide
  · simp [spec_processorCount]

/-! ## The resolved path lies under the mount point -/

/-- The string at a pointer advanced by `n` characters is the string with its
first `n` characters dropped. -/
theorem cstr_advance (h : Heap) (g : Ptr) (n : Nat) :
    cstr h ⟨g.buf, g.off + n⟩ = (cstr h g).drop n := by
  simp [cstr, List.drop_drop, Nat.add_comm]

/-- With a non-null mount point the call always returns. -/
theorem set_subsystem_path_returns (h : Heap) (c : CgroupV1Controller) (cg : Option Ptr)
    (m : Ptr) (hm : c._mount_point = some m) :
    ∃ h1 c1, c.set_subsystem_path h cg = some (h1, c1) := by
  unfold CgroupV1Controller.set_subsystem_path
  rw [hm]
  cases c._root with
  | none => exact ⟨_, _, rfl⟩
  | some r =>
    cases cg with
    | none => exact ⟨_, _, rfl⟩
    | some g =>
      simp only []
      split
      · exact ⟨_, _, rfl⟩
      · split
        · exact ⟨_, _, rfl⟩
        · cases strstr h g r with
          | none => exact ⟨_, _, rfl⟩
          | some p =>
            simp only []
            split
            · split
              · exact ⟨_, _, rfl⟩
              · exact ⟨_, _, rfl⟩
            · exact ⟨_, _, rfl⟩

/-- C22: on a controller whose path is null (as the constructor leaves it),
whenever `set_subsystem_path(C)` returns with a resolved path, that path is the
mount point followed by a remainder that is empty or a suffix of `C`; and with a
non-null mount point the call does return. -/
theorem resolved_path_under_mount_point (h : Heap) (c : CgroupV1Controller)
    (cg : Option Ptr) (hp : c._path = none) :
    (∀ m, c._mount_point = some m → ∃ h1 c1, c.set_subsystem_path h cg = some (h1, c1)) ∧
    ∀ h1 c1 p, c.set_subsystem_path h cg = some (h1, c1) →
      c1.subsystem_path h1 = some p →
      ∃ m g rem, c._mount_point = some m ∧ cg = some g ∧ p = cstr h m ++ rem ∧
        (rem = [] ∨ rem <:+ cstr h g) := by
  refine ⟨fun m hm => set_subsystem_path_returns h c cg m hm, ?_⟩
  intro h1 c1 p hcall hpath
  have hstay : (h1, c1) = (h, c) → False := by
    intro he
    cases he
    simp [CgroupV1Controller.subsystem_path, hp] at hpath
  unfold CgroupV1Controller.set_subsystem_path at hcall
  cases hr : c._root with
  | none =>
    rw [hr] at hcall
    simp only [Option.some.injEq] at hcall
    exact (hstay hcall.symm).elim
  | some r =>
    cases cg with
    | none =>
      rw [hr] at hcall
      simp only [Option.some.injEq] at hcall
      exact (hstay hcall.symm).elim
    | some g =>
      rw [hr] at hcall
      simp only [] at hcall
      cases hmp : c._mount_point with
      | none =>
        rw [hmp] at hcall
        split at hcall
        · simp at hcall
        · split at hcall
          · simp at hcall
          · cases hs : strstr h g r with
            | none =>
              rw [hs] at hcall
              simp only [Option.some.injEq] at hcall
              exact (hstay hcall.symm).elim
            | some q =>
              rw [hs] at hcall
              simp only [] at hcall
              split at hcall
              · split at hcall
                · simp at hcall
                · simp only [Option.some.injEq] at hcall
                  exact (hstay hcall.symm).elim
              · simp only [Option.some.injEq] at hcall
                exact (hstay hcall.symm).elim
      | some m =>
        rw [hmp] at hcall
        refine ⟨m, g, ?_⟩
        split at hcall
        · simp only [os_strdup, List.nil_append, Option.some.injEq, Prod.mk.injEq] at hcall
          obtain ⟨rfl, rfl⟩ := hcall
          simp only [CgroupV1Controller.subsystem_path, Option.map_some', cstr_append_new,
            Option.some.injEq] at hpath
          subst hpath
          by_cases hg : cstr h g = ['/']
          · exact ⟨[], rfl, rfl, by simp [hg], Or.inl rfl⟩
          · exact ⟨cstr h g, rfl, rfl, by simp [hg], Or.inr (List.suffix_refl _)⟩
        · split at hcall
          · simp only [os_strdup, List.nil_append, Option.some.injEq, Prod.mk.injEq] at hcall
            obtain ⟨rfl, rfl⟩ := hcall
            simp only [CgroupV1Controller.subsystem_path, Option.map_some', cstr_append_new,
              Option.some.injEq] at hpath
            subst hpath
            exact ⟨[], rfl, rfl, by simp, Or.inl rfl⟩
          · cases hs : strstr h g r with
            | none =>
              rw [hs] at hcall
              simp only [Option.some.injEq] at hcall
              exact (hstay hcall.symm).elim
            | some q =>
              rw [hs] at hcall
              simp only [] at hcall
              split at hcall
              · split at hcall
                · simp only [os_strdup, List.nil_append, Option.some.injEq,
                    Prod.mk.injEq] at hcall
                  obtain ⟨rfl, rfl⟩ := hcall
                  simp only [CgroupV1Controller.subsystem_path, Option.map_some',
                    cstr_append_new, Option.some.injEq] at hpath
                  subst hpath
                  exact ⟨cstr h ⟨g.buf, g.off + strlen h r⟩, rfl, rfl, rfl,
                    Or.inr (by rw [cstr_advance]; exact List.drop_suffix _ _)⟩
                · simp only [Option.some.injEq] at hcall
                  exact (hstay hcall.symm).elim
              · simp only [Option.some.injEq] at hcall
                exact (hstay hcall.symm).elim

/-- C22 on the example heap: root `/`, mount point `/sys/fs/cgroup/memory`,
cgroup path `/docker/app`; the resolved path is the mount point followed by a
suffix of the cgroup path. -/
theorem resolved_path_under_mount_point_witness :
    (CgroupV1Controller.construct exampleHeap ⟨3, 0⟩ ⟨1, 0⟩).2._path = none ∧
    ∃ m g rem,
      (CgroupV1Controller.construct exampleHeap ⟨3, 0⟩ ⟨1, 0⟩).2._mount_point = some m ∧
      some (⟨2, 0⟩ : Ptr) = some g ∧
      "/sys/fs/cgroup/memory/docker/app".toList =
        cstr (CgroupV1Controller.construct exampleHeap ⟨3, 0⟩ ⟨1, 0⟩).1 m ++ rem ∧
      (rem = [] ∨ rem <:+ cstr (CgroupV1Controller.construct exampleHeap ⟨3, 0⟩ ⟨1, 0⟩).1 g) :=
  ⟨rfl,
    (resolved_path_under_mount_point
      (CgroupV1Controller.construct exampleHeap ⟨3, 0⟩ ⟨1, 0⟩).1
      (CgroupV1Controller.construct exampleHeap ⟨3, 0⟩ ⟨1, 0⟩).2 (some ⟨2, 0⟩) rfl).2
      ((CgroupV1Controller.construct exampleHeap ⟨3, 0⟩ ⟨1, 0⟩).1 ++
        ["/sys/fs/cgroup/memory/docker/app".toList])
      { (CgroupV1Controller.construct exampleHeap ⟨3, 0⟩ ⟨1, 0⟩).2 with _path := some ⟨6, 0⟩ }
      "/sys/fs/cgroup/memory/docker/app".toList (by decide) (by decide)⟩

/-! ## Swap usage with swappiness 0, and the printed labels -/

/-- With swappiness 0 and a `read_mem_swap` other than `-1`, the
memory-and-swap limit is the memory limit. -/
theorem memory_and_swap_limit_swappiness_zero_aux (f : MemoryReads)
    (physical_memory host_swap : Nat) (hswp : f.swappiness = some 0)
    (hlim : read_mem_swap f physical_memory host_swap ≠ -1) :
    memory_and_swap_limit_in_bytes f physical_memory host_swap =
      read_memory_limit_in_bytes f.limit_in_bytes f.is_hierarchical
        f.stat_hierarchical_memory_limit physical_memory := by
  have h0 : read_mem_swappiness f = 0 := by
    simp [read_mem_swappiness, hswp, toJlong]
  simp [memory_and_swap_limit_in_bytes, hlim, h0]

/-- C23: when `memory.swappiness` reads as 0 and the memory limit the function
uses is what `read_memory_limit_in_bytes` returns for the same files,
`memory_and_swap_usage_in_bytes` is `memory_usage_in_bytes()`, for every state of
the swap-inclusive files; the `memory.memsw.usage_in_bytes` branch is not
taken. -/
theorem memory_and_swap_usage_swappiness_zero (f : MemoryReads)
    (physical_memory host_swap : Nat) (hswp : f.swappiness = some 0) :
    memory_and_swap_usage_in_bytes f physical_memory host_swap
        (read_memory_limit_in_bytes f.limit_in_bytes f.is_hierarchical
          f.stat_hierarchical_memory_limit physical_memory) =
      memory_usage_in_bytes f ∧
    ¬ (memory_and_swap_limit_in_bytes f physical_memory host_swap > 0 ∧
        read_memory_limit_in_bytes f.limit_in_bytes f.is_hierarchical
          f.stat_hierarchical_memory_limit physical_memory > 0 ∧
        memory_and_swap_limit_in_bytes f physical_memory host_swap >
          read_memory_limit_in_bytes f.limit_in_bytes f.is_hierarchical
            f.stat_hierarchical_memory_limit physical_memory) := by
  have hnot : ¬ (memory_and_swap_limit_in_bytes f physical_memory host_swap > 0 ∧
        read_memory_limit_in_bytes f.limit_in_bytes f.is_hierarchical
          f.stat_hierarchical_memory_limit physical_memory > 0 ∧
        memory_and_swap_limit_in_bytes f physical_memory host_swap >
          read_memory_limit_in_bytes f.limit_in_bytes f.is_hierarchical
            f.stat_hierarchical_memory_limit physical_memory) := by
    by_cases h1 : read_mem_swap f physical_memory host_swap = -1
    · have h2 : memory_and_swap_limit_in_bytes f physical_memory host_swap = -1 := by
        simp [memory_and_swap_limit_in_bytes, h1]
      rw [h2]
      omega
    · rw [memory_and_swap_limit_swappiness_zero_aux f physical_memory host_swap hswp h1]
      omega
  refine ⟨?_, hnot⟩
  unfold memory_and_swap_usage_in_bytes
  by_cases h1 : read_mem_swap f physical_memory host_swap = -1
  · have h2 : memory_and_swap_limit_in_bytes f physical_memory host_swap = -1 := by
      simp [memory_and_swap_limit_in_bytes, h1]
    simp [h2]
  · rw [memory_and_swap_limit_swappiness_zero_aux f physical_memory host_swap hswp h1]
    simp

/-- C23 on the example files with a swap-inclusive limit of 2 GiB above a
memory limit of 1 GiB (8 GiB host, 2 GiB swap): the result is the
`memory.usage_in_bytes` read. -/
theorem memory_and_swap_usage_swappiness_zero_witness :
    ({ exampleMemoryReads with
        memsw_limit_in_bytes := some 2147483648
        memsw_usage_in_bytes := some 805306368 } : MemoryReads).swappiness = some 0 ∧
    memory_and_swap_usage_in_bytes
        { exampleMemoryReads with
            memsw_limit_in_bytes := some 2147483648
            memsw_usage_in_bytes := some 805306368 }
        8589934592 2147483648
        (read_memory_limit_in_bytes (some 1073741824) false (some 1073741824) 8589934592) =
      memory_usage_in_bytes
        { exampleMemoryReads with
            memsw_limit_in_bytes := some 2147483648
            memsw_usage_in_bytes := some 805306368 } :=
  ⟨rfl,
    (memory_and_swap_usage_swappiness_zero
      { exampleMemoryReads with
          memsw_limit_in_bytes := some 2147483648
          memsw_usage_in_bytes := some 805306368 }
      8589934592 2147483648 rfl).1⟩

/-- C24 (code at the failing input): on the example files with an 8 GiB host,
`kernel_memory_limit_in_bytes()` is `-1` and `kernel_memory_max_usage_in_bytes()`
is 8388608; the function passes `-1` under the label
`kernel_memory_max_usage_in_bytes` and 8388608 under the label
`kernel_memory_limit_in_bytes`, so two of its three labels name the other
query. -/
theorem print_version_specific_info_swaps_labels :
    kernel_memory_usage_in_bytes exampleMemoryReads = 4194304 ∧
    kernel_memory_limit_in_bytes exampleMemoryReads 8589934592 = -1 ∧
    kernel_memory_max_usage_in_bytes exampleMemoryReads = 8388608 ∧
    print_version_specific_info exampleMemoryReads 8589934592 =
      [(4194304, "kernel_memory_usage_in_bytes"),
       (-1, "kernel_memory_max_usage_in_bytes"),
       (8388608, "kernel_memory_limit_in_bytes")] ∧
    print_version_specific_info exampleMemoryReads 8589934592 ≠
      spec_version_specific_info exampleMemoryReads 8589934592 := by
  decide

end Cgroup
